import Mathlib

/-!
Verification of the `deadline-cloud-for-maya` excerpt: a shallow embedding of
`src/deadline/maya_adaptor/MayaClient/render_handlers/arnold_handler.py`
(`ArnoldHandler.start_render`, `ArnoldHandler.set_error_on_arnold_license_fail`)
and `src/deadline/maya_submitter/mel_commands.py`
(`DeadlineCloudSubmitterCmd.doIt`), together with proofs of the spec's
testable properties.

Python dictionary values are modelled by the dynamic type `PyVal`; job
parameter dictionaries and the Maya attribute store are association lists.
Side effects on the host application (`maya.cmds.setAttr`,
`maya.cmds.arnoldRender`) are recorded in an explicit effect trace.  A Python
`raise` is an `Except.error` carrying the message together with the state at
the point of the raise (mutations made before the raise persist, as they do
on the Python objects).
-/

namespace Maya

/-- Dynamic Python value as it occurs in the job-parameter dictionaries and
Maya attributes handled by this code: `None`, `int`, `bool`, or `str`. -/
inductive PyVal where
  | none : PyVal
  | int (n : Int) : PyVal
  | bool (b : Bool) : PyVal
  | str (s : String) : PyVal
deriving DecidableEq, Repr

/-- Python `isinstance(v, int)`.  Note that Python `bool` is a subclass of
`int`, so booleans pass the `isinstance(..., int)` checks in the source. -/
def PyVal.isInstInt : PyVal → Bool
  | .int _ => true
  | .bool _ => true
  | _ => false

/-- Numeric view of a value, as Python arithmetic (`divmod`, `<`) sees it:
ints are themselves, `True`/`False` are `1`/`0`, anything else is a
`TypeError` (modelled as `Option.none`). -/
def PyVal.toInt : PyVal → Option Int
  | .int n => Option.some n
  | .bool b => Option.some (if b then 1 else 0)
  | _ => Option.none

/-- Python `str(v)` as used by the f-string building the image file prefix. -/
def PyVal.pyStr : PyVal → String
  | .none => "None"
  | .int n => toString n
  | .bool b => if b then "True" else "False"
  | .str s => s

/-- Numeric value of a parameter that already passed an
`isinstance(..., int)` check (so `toInt` cannot fail; the default is never
reached). -/
def PyVal.asInt (v : PyVal) : Int :=
  v.toInt.getD 0

/-- A Python `dict` with string keys, as an association list.  The most
recent binding of a key shadows older ones. -/
abbrev Dict := List (String × PyVal)

/-- First binding of a key, if any. -/
def Dict.find : Dict → String → Option PyVal
  | [], _ => Option.none
  | (k, v) :: rest, key => if k = key then Option.some v else Dict.find rest key

/-- Python `d.get(key)`: the bound value, or `None` when the key is absent. -/
def Dict.get (d : Dict) (key : String) : PyVal :=
  (Dict.find d key).getD PyVal.none

/-- Python `d.get(key, dflt)`. -/
def Dict.getD (d : Dict) (key : String) (dflt : PyVal) : PyVal :=
  (Dict.find d key).getD dflt

/-- Python `key in d`. -/
def Dict.contains (d : Dict) (key : String) : Bool :=
  (Dict.find d key).isSome

/-- Python `d[key] = v`. -/
def Dict.insert (d : Dict) (key : String) (v : PyVal) : Dict :=
  (key, v) :: d

/-- One observable host-application side effect of the render handler. -/
inductive Effect where
  | setAttr (name : String) (val : PyVal)
  | arnoldRender (kwargs : Dict)
deriving DecidableEq, Repr

/-- State threaded through `ArnoldHandler.start_render`: the handler's
`render_kwargs` dictionary, the Maya attribute store, and the trace of
side-effecting host calls made so far. -/
structure RState where
  kwargs : Dict
  attrs : Dict
  effects : List Effect
deriving DecidableEq, Repr

/-- Model of `maya.cmds.setAttr(name, v)`: updates the attribute store and
records the call in the effect trace. -/
def RState.setAttr (s : RState) (name : String) (v : PyVal) : RState :=
  { s with attrs := Dict.insert s.attrs name v
         , effects := s.effects ++ [Effect.setAttr name v] }

/-- Model of `maya.cmds.getAttr(name)` (a pure read of the host state). -/
def RState.getAttr (s : RState) (name : String) : PyVal :=
  Dict.get s.attrs name

/-- Model of `self.render_kwargs[key] = v`. -/
def RState.setKwarg (s : RState) (key : String) (v : PyVal) : RState :=
  { s with kwargs := Dict.insert s.kwargs key v }

/-- Initial handler state built by `ArnoldHandler.__init__`: the inherited
`DefaultMayaHandler.__init__` (not part of this excerpt; per the spec the
handler merely accumulates a working configuration mapping) starts
`render_kwargs` empty, and the Arnold handler adds `batch = True`. -/
def ArnoldHandler.initKwargs : Dict :=
  [("batch", PyVal.bool true)]

/-- Modelled from the spec: `DefaultMayaHandler.get_camera_to_render` lives in
`default_maya_handler.py`, which is not part of this excerpt.  Per the
handler's docstring it raises a runtime error when no camera was specified
and no renderable camera was found, and otherwise yields the camera to
render; we model it as returning the `camera` entry of the data when bound
and failing otherwise. -/
def get_camera_to_render (data : Dict) : Except String PyVal :=
  match Dict.find data "camera" with
  | Option.some v => Except.ok v
  | Option.none => Except.error "No renderable camera found"

/-- The per-axis tile bounds computed by `start_render` (lines 67-83 of
`arnold_handler.py`): `delta, rem = divmod(total, n)`; the inclusive range is
`[delta * (idx - 1), delta * idx - 1]`, with the remainder added to the upper
bound of the last tile (`idx = n`).  `Int.fdiv`/`Int.fmod` are Python's
floor-division `divmod`. -/
def tileRange (total n idx : Int) : Int × Int :=
  let delta := Int.fdiv total n
  let rem := Int.fmod total n
  (delta * (idx - 1), delta * idx - 1 + (if idx = n then rem else 0))

/-- Membership of pixel coordinate `p` in the inclusive per-axis range of
tile `idx` out of `n` tiles over `total` pixels. -/
def inTile (total n idx p : Int) : Prop :=
  (tileRange total n idx).1 ≤ p ∧ p ≤ (tileRange total n idx).2

instance (total n idx p : Int) : Decidable (inTile total n idx p) := by
  unfold inTile
  infer_instance

/-- The tile-rendering block of `start_render` (lines 53-100), entered when
`numXTiles` and `numYTiles` are both non-`None`: validate that the four tile
parameters are integers, compute the region bounds by `divmod`, set the four
region attributes, and set the tile image file prefix. -/
def tileBlock (data : Dict) (numXTiles numYTiles : PyVal) (s : RState) :
    Except (String × RState) RState :=
  if ¬(numXTiles.isInstInt ∧ numYTiles.isInstInt) then
    Except.error ("numXTiles and numYTiles variables from run-data must be integers", s)
  else
    let tileNumX := Dict.get data "tileNumX"
    let tileNumY := Dict.get data "tileNumY"
    if ¬(tileNumX.isInstInt ∧ tileNumY.isInstInt) then
      Except.error ("tileNumX and tileNumY variables from run-data must be integers", s)
    else
      match (Dict.get s.kwargs "width").toInt, (Dict.get s.kwargs "height").toInt with
      | Option.some w, Option.some h =>
        let nx := numXTiles.asInt
        let ny := numYTiles.asInt
        if nx = 0 ∨ ny = 0 then
          Except.error ("ZeroDivisionError: integer division or modulo by zero", s)
        else
          let xr := tileRange w nx tileNumX.asInt
          let yr := tileRange h ny tileNumY.asInt
          let s1 := s.setAttr "defaultArnoldRenderOptions.regionMinX" (PyVal.int xr.1)
          let s2 := s1.setAttr "defaultArnoldRenderOptions.regionMaxX" (PyVal.int xr.2)
          let s3 := s2.setAttr "defaultArnoldRenderOptions.regionMinY" (PyVal.int yr.1)
          let s4 := s3.setAttr "defaultArnoldRenderOptions.regionMaxY" (PyVal.int yr.2)
          let pfx := Dict.get data "output_file_prefix"
          let s5 := s4.setAttr "defaultRenderGlobals.imageFilePrefix"
            (PyVal.str ("_tile_" ++ tileNumY.pyStr ++ "x" ++ tileNumX.pyStr ++ "_"
              ++ numYTiles.pyStr ++ "x" ++ numXTiles.pyStr ++ "_" ++ pfx.pyStr))
          Except.ok s5
      | _, _ =>
        Except.error ("TypeError: unsupported operand type(s) for divmod()", s)

/-- Lines 36-47 of `arnold_handler.py`: default `width`/`height` in
`render_kwargs` from the host document's current resolution when absent. -/
def withDefaults (s : RState) : RState :=
  let s1 :=
    if Dict.contains s.kwargs "width" then s
    else s.setKwarg "width" (s.getAttr "defaultResolution.width")
  if Dict.contains s1.kwargs "height" then s1
  else s1.setKwarg "height" (s1.getAttr "defaultResolution.height")

/-- Lines 104-112 of `arnold_handler.py`: set the Arnold render type, raise
the log verbosity to 2 when it is below 2, and invoke the renderer with the
accumulated `render_kwargs`. -/
def finishPhase (s : RState) : Except (String × RState) RState :=
  let s6 := s.setAttr "defaultArnoldRenderOptions.renderType" (PyVal.int 0)
  match (s6.getAttr "defaultArnoldRenderOptions.log_verbosity").toInt with
  | Option.none =>
      Except.error ("TypeError: '<' not supported between instances", s6)
  | Option.some v =>
      let s7 :=
        if v < 2 then
          s6.setAttr "defaultArnoldRenderOptions.log_verbosity" (PyVal.int 2)
        else s6
      Except.ok { s7 with effects := s7.effects ++ [Effect.arnoldRender s7.kwargs] }

/-- Lines 49-112 of `arnold_handler.py`, after the frame and camera are
resolved: run the tile block when both tile counts are given (lines 53-100),
then set the render type and verbosity and invoke the renderer. -/
def renderPhases (data : Dict) (s4 : RState) : Except (String × RState) RState :=
  let numXTiles := Dict.get data "numXTiles"
  let numYTiles := Dict.get data "numYTiles"
  match
    (if numXTiles ≠ PyVal.none ∧ numYTiles ≠ PyVal.none then
      tileBlock data numXTiles numYTiles s4
    else Except.ok s4) with
  | Except.error e => Except.error e
  | Except.ok s5 => finishPhase s5

/-- `ArnoldHandler.start_render(data)`: check the frame, record `seq` and
`camera` in `render_kwargs`, default `width`/`height` from the host
resolution, run the tile block when both tile counts are given, then set the
render type and verbosity and invoke the renderer. -/
def ArnoldHandler.start_render (data : Dict) (s0 : RState) :
    Except (String × RState) RState :=
  let frame := Dict.get data "frame"
  if frame = PyVal.none then
    Except.error ("MayaClient: start_render called without a frame number.", s0)
  else
    let s1 := s0.setKwarg "seq" frame
    match get_camera_to_render data with
    | Except.error e => Except.error (e, s1)
    | Except.ok cam =>
      let s2 := s1.setKwarg "camera" cam
      renderPhases data (withDefaults s2)

/-- `ArnoldHandler.set_error_on_arnold_license_fail(data)` (lines 114-124):
set `abortOnLicenseFail` to the `error_on_arnold_license_fail` entry,
defaulting to `True` when the key is absent. -/
def ArnoldHandler.set_error_on_arnold_license_fail (data : Dict) (s : RState) : RState :=
  s.setAttr "defaultArnoldRenderOptions.abortOnLicenseFail"
    (Dict.getD data "error_on_arnold_license_fail" (PyVal.bool true))

/-- State at the end of a run of `start_render`, whether it returned or
raised (a Python exception leaves the side effects made so far in place). -/
def runState : Except (String × RState) RState → RState
  | Except.ok s => s
  | Except.error (_, s) => s

/-- Whether a run of `start_render` raised. -/
def isError : Except (String × RState) RState → Bool
  | Except.ok _ => false
  | Except.error _ => true

/-! Model of `mel_commands.py`.  The submitter command's collaborators
(`RenderSubmitterSettings.load`, `RenderSubmitterUISettings`,
`apply_saved_settings`, `json.dumps(dataclasses.asdict(...))`,
`show_maya_render_submitter`) are outside this excerpt, so they are
modelled from the spec as opaque inputs and recorded effects. -/

/-- Modelled from the spec: the outcome of `RenderSubmitterSettings.load()`,
which is not part of this excerpt.  It may return saved settings (modelled
as an opaque token), return nothing, or raise `PersistentDataclassError`. -/
inductive LoadOutcome where
  | loaded (settings : Nat)
  | loadedNone
  | persistError
deriving DecidableEq, Repr

/-- Host-application inputs read by `DeadlineCloudSubmitterCmd.doIt`: whether
Maya is in UI mode (`mayaState` is interactive or base-UI), the saved scene
name (empty when the scene was never saved), and the settings-load outcome. -/
structure SubmitterWorld where
  uiMode : Bool
  sceneName : String
  loadOutcome : LoadOutcome
deriving DecidableEq, Repr

/-- One observable effect of the submitter command. -/
inductive SubmitEffect where
  | confirmDialog (title message : String)
  | loadSettings
  | printExc
  | setResult (payload : String)
  | showSubmitter (settings : Option Nat)
deriving DecidableEq, Repr

/-- Modelled from the spec: `json.dumps(dataclasses.asdict(rs_settings))` for
a `RenderSubmitterUISettings` that is either the defaults (`Option.none`) or
the defaults with saved settings applied (`Option.some token`); the
serializer itself is not part of this excerpt. -/
def serializeUISettings : Option Nat → String
  | Option.none => "RenderSubmitterUISettings(default)"
  | Option.some n => "RenderSubmitterUISettings(saved " ++ toString n ++ ")"

/-- `DeadlineCloudSubmitterCmd.doIt` (lines 33-74 of `mel_commands.py`): in
UI mode, show a modal dialog and stop when the scene is unsaved; otherwise
try to load saved settings (a `PersistentDataclassError` is logged via
`traceback.print_exc` and treated as no saved settings), build the UI
settings, set the serialized command result, and show the submitter. -/
def DeadlineCloudSubmitterCmd.doIt (w : SubmitterWorld) : List SubmitEffect :=
  if w.uiMode then
    if w.sceneName = "" then
      [SubmitEffect.confirmDialog "Deadline Cloud Submitter"
        "The Maya Scene is not saved to disk. Please save it before opening the submitter dialog."]
    else
      let loadStep : List SubmitEffect × Option Nat :=
        match w.loadOutcome with
        | LoadOutcome.loaded n => ([SubmitEffect.loadSettings], Option.some n)
        | LoadOutcome.loadedNone => ([SubmitEffect.loadSettings], Option.none)
        | LoadOutcome.persistError =>
            ([SubmitEffect.loadSettings, SubmitEffect.printExc], Option.none)
      let rs_settings := loadStep.2
      loadStep.1 ++ [SubmitEffect.setResult (serializeUISettings rs_settings),
        SubmitEffect.showSubmitter rs_settings]
  else []

/-! Basic lemmas about the state and dictionary operations. -/

theorem Dict.get_insert_self (d : Dict) (k : String) (v : PyVal) :
    Dict.get (Dict.insert d k v) k = v := by
  simp [Dict.get, Dict.insert, Dict.find]

theorem Dict.get_insert_ne (d : Dict) (k k' : String) (v : PyVal) (h : k ≠ k') :
    Dict.get (Dict.insert d k v) k' = Dict.get d k' := by
  simp [Dict.get, Dict.insert, Dict.find, h]

theorem Dict.contains_insert_ne (d : Dict) (k k' : String) (v : PyVal) (h : k ≠ k') :
    Dict.contains (Dict.insert d k v) k' = Dict.contains d k' := by
  simp [Dict.contains, Dict.insert, Dict.find, h]

theorem RState.setKwarg_attrs (s : RState) (k : String) (v : PyVal) :
    (s.setKwarg k v).attrs = s.attrs := rfl

theorem RState.setKwarg_effects (s : RState) (k : String) (v : PyVal) :
    (s.setKwarg k v).effects = s.effects := rfl

theorem RState.setAttr_kwargs (s : RState) (k : String) (v : PyVal) :
    (s.setAttr k v).kwargs = s.kwargs := rfl

theorem RState.getAttr_setAttr_self (s : RState) (k : String) (v : PyVal) :
    (s.setAttr k v).getAttr k = v := by
  simp [RState.getAttr, RState.setAttr, Dict.get_insert_self]

theorem RState.getAttr_setAttr_ne (s : RState) (k k' : String) (v : PyVal) (h : k ≠ k') :
    (s.setAttr k v).getAttr k' = s.getAttr k' := by
  simp [RState.getAttr, RState.setAttr, Dict.get_insert_ne _ _ _ _ h]

theorem withDefaults_attrs (s : RState) : (withDefaults s).attrs = s.attrs := by
  unfold withDefaults
  split <;> dsimp only <;> split <;> rfl

theorem withDefaults_effects (s : RState) : (withDefaults s).effects = s.effects := by
  unfold withDefaults
  split <;> dsimp only <;> split <;> rfl

theorem tileBlock_error_state (data : Dict) (nx ny : PyVal) (s : RState)
    (e : String × RState) (h : tileBlock data nx ny s = Except.error e) :
    e.2 = s := by
  unfold tileBlock at h
  split at h
  · cases h; rfl
  · try dsimp only at h
    split at h
    · cases h; rfl
    · split at h
      · try dsimp only at h
        split at h
        · cases h; rfl
        · cases h
      · cases h; rfl

theorem tileBlock_ok_kwargs (data : Dict) (nx ny : PyVal) (s s5 : RState)
    (h : tileBlock data nx ny s = Except.ok s5) : s5.kwargs = s.kwargs := by
  unfold tileBlock at h
  split at h
  · cases h
  · try dsimp only at h
    split at h
    · cases h
    · split at h
      · try dsimp only at h
        split at h
        · cases h
        · cases h; rfl
      · cases h

theorem tileBlock_ok_getAttr (data : Dict) (nx ny : PyVal) (s s5 : RState)
    (k : String) (h : tileBlock data nx ny s = Except.ok s5)
    (h1 : k ≠ "defaultArnoldRenderOptions.regionMinX")
    (h2 : k ≠ "defaultArnoldRenderOptions.regionMaxX")
    (h3 : k ≠ "defaultArnoldRenderOptions.regionMinY")
    (h4 : k ≠ "defaultArnoldRenderOptions.regionMaxY")
    (h5 : k ≠ "defaultRenderGlobals.imageFilePrefix") :
    s5.getAttr k = s.getAttr k := by
  unfold tileBlock at h
  split at h
  · cases h
  · try dsimp only at h
    split at h
    · cases h
    · split at h
      · try dsimp only at h
        split at h
        · cases h
        · cases h
          rw [RState.getAttr_setAttr_ne _ _ _ _ (fun hk => h5 hk.symm),
              RState.getAttr_setAttr_ne _ _ _ _ (fun hk => h4 hk.symm),
              RState.getAttr_setAttr_ne _ _ _ _ (fun hk => h3 hk.symm),
              RState.getAttr_setAttr_ne _ _ _ _ (fun hk => h2 hk.symm),
              RState.getAttr_setAttr_ne _ _ _ _ (fun hk => h1 hk.symm)]
      · cases h

theorem finishPhase_runState_kwargs (s : RState) :
    (runState (finishPhase s)).kwargs = s.kwargs := by
  unfold finishPhase
  try dsimp only
  split
  · rfl
  · try dsimp only
    split <;> rfl

theorem finishPhase_runState_getAttr (s : RState) (k : String)
    (h1 : k ≠ "defaultArnoldRenderOptions.renderType")
    (h2 : k ≠ "defaultArnoldRenderOptions.log_verbosity") :
    (runState (finishPhase s)).getAttr k = s.getAttr k := by
  unfold finishPhase
  try dsimp only
  split
  · exact RState.getAttr_setAttr_ne _ _ _ _ (fun hk => h1 hk.symm)
  · try dsimp only
    split
    · show (RState.setAttr _ _ _).getAttr k = _
      rw [RState.getAttr_setAttr_ne _ _ _ _ (fun hk => h2 hk.symm),
          RState.getAttr_setAttr_ne _ _ _ _ (fun hk => h1 hk.symm)]
    · exact RState.getAttr_setAttr_ne _ _ _ _ (fun hk => h1 hk.symm)

theorem finishPhase_ok_verbosity (s s' : RState) (v : Int)
    (hv : s.getAttr "defaultArnoldRenderOptions.log_verbosity" = PyVal.int v)
    (h : finishPhase s = Except.ok s') :
    s'.getAttr "defaultArnoldRenderOptions.log_verbosity" = PyVal.int (max v 2) := by
  have h6 : (s.setAttr "defaultArnoldRenderOptions.renderType"
      (PyVal.int 0)).getAttr "defaultArnoldRenderOptions.log_verbosity" = PyVal.int v := by
    rw [RState.getAttr_setAttr_ne _ _ _ _ (by decide)]
    exact hv
  unfold finishPhase at h
  dsimp only at h
  rw [h6] at h
  dsimp only [PyVal.toInt] at h
  split at h
  · cases h
    next hlt =>
    show (RState.setAttr _ _ _).getAttr _ = _
    rw [RState.getAttr_setAttr_self]
    congr 1
    omega
  · cases h
    next hge =>
    show (RState.setAttr _ _ _).getAttr _ = _
    rw [h6]
    congr 1
    omega

theorem renderPhases_runState_kwargs (data : Dict) (s4 : RState) :
    (runState (renderPhases data s4)).kwargs = s4.kwargs := by
  unfold renderPhases
  try dsimp only
  split
  · next e heq =>
    split at heq
    · have := tileBlock_error_state _ _ _ _ _ heq
      simp [runState, this]
    · cases heq
  · next s5 heq =>
    rw [finishPhase_runState_kwargs]
    split at heq
    · exact tileBlock_ok_kwargs _ _ _ _ _ heq
    · cases heq; rfl

theorem RState.setKwarg_kwargs (s : RState) (k : String) (v : PyVal) :
    (s.setKwarg k v).kwargs = Dict.insert s.kwargs k v := rfl

theorem Dict.find_of_get_ne_none (d : Dict) (k : String)
    (h : Dict.get d k ≠ PyVal.none) :
    Dict.find d k = Option.some (Dict.get d k) := by
  unfold Dict.get at *
  cases hf : Dict.find d k with
  | none => rw [hf] at h; exact absurd rfl h
  | some v => rfl

theorem Dict.contains_of_get_ne_none (d : Dict) (k : String)
    (h : Dict.get d k ≠ PyVal.none) : Dict.contains d k = true := by
  unfold Dict.contains
  rw [Dict.find_of_get_ne_none d k h]
  rfl

theorem withDefaults_absent (s : RState)
    (hw : Dict.contains s.kwargs "width" = false)
    (hh : Dict.contains s.kwargs "height" = false) :
    Dict.get (withDefaults s).kwargs "width" = s.getAttr "defaultResolution.width" ∧
    Dict.get (withDefaults s).kwargs "height" = s.getAttr "defaultResolution.height" := by
  unfold withDefaults
  split
  · next hcond => rw [hw] at hcond; cases hcond
  · try dsimp only
    split
    · next hcond =>
      rw [RState.setKwarg_kwargs, Dict.contains_insert_ne _ _ _ _ (by decide), hh] at hcond
      cases hcond
    · constructor
      · show Dict.get (Dict.insert (Dict.insert s.kwargs "width" _) "height" _) "width" = _
        rw [Dict.get_insert_ne _ _ _ _ (by decide), Dict.get_insert_self]
      · show Dict.get (Dict.insert (Dict.insert s.kwargs "width" _) "height" _) "height" = _
        rw [Dict.get_insert_self]
        rfl

theorem withDefaults_width_present (s : RState)
    (hw : Dict.contains s.kwargs "width" = true) :
    Dict.get (withDefaults s).kwargs "width" = Dict.get s.kwargs "width" := by
  unfold withDefaults
  split
  · try dsimp only
    split
    · rfl
    · show Dict.get (Dict.insert s.kwargs "height" _) "width" = _
      rw [Dict.get_insert_ne _ _ _ _ (by decide)]
  · next hcond => exact absurd hw hcond

theorem withDefaults_both_present (s : RState)
    (hw : Dict.contains s.kwargs "width" = true)
    (hh : Dict.contains s.kwargs "height" = true) :
    withDefaults s = s := by
  unfold withDefaults
  split
  · try dsimp only
    split
    · rfl
    · next hcond => exact absurd hh hcond
  · next hcond => exact absurd hw hcond

theorem withDefaults_getAttr (s : RState) (k : String) :
    (withDefaults s).getAttr k = s.getAttr k := by
  unfold RState.getAttr
  rw [withDefaults_attrs]

theorem tileBlock_nonint_error (data : Dict) (nxv nyv : PyVal) (s : RState)
    (hni : (nxv.isInstInt && nyv.isInstInt
        && (Dict.get data "tileNumX").isInstInt
        && (Dict.get data "tileNumY").isInstInt) = false) :
    ∃ m, tileBlock data nxv nyv s = Except.error (m, s) := by
  unfold tileBlock
  by_cases h1 : nxv.isInstInt = true ∧ nyv.isInstInt = true
  · rw [if_neg (not_not_intro h1)]
    try dsimp only
    have h2 : ¬((Dict.get data "tileNumX").isInstInt = true ∧
        (Dict.get data "tileNumY").isInstInt = true) := by
      rcases h1 with ⟨ha, hb⟩
      rw [ha, hb] at hni
      simp at hni
      simp [hni]
      intro hc
      exact hni hc
    rw [if_pos h2]
    exact ⟨_, rfl⟩
  · rw [if_pos h1]
    exact ⟨_, rfl⟩

theorem renderPhases_nonint_error (data : Dict) (s4 : RState)
    (hx : Dict.get data "numXTiles" ≠ PyVal.none)
    (hy : Dict.get data "numYTiles" ≠ PyVal.none)
    (hni : ((Dict.get data "numXTiles").isInstInt && (Dict.get data "numYTiles").isInstInt
        && (Dict.get data "tileNumX").isInstInt
        && (Dict.get data "tileNumY").isInstInt) = false) :
    ∃ m, renderPhases data s4 = Except.error (m, s4) := by
  obtain ⟨m, hm⟩ := tileBlock_nonint_error data
    (Dict.get data "numXTiles") (Dict.get data "numYTiles") s4 hni
  refine ⟨m, ?_⟩
  unfold renderPhases
  try dsimp only
  rw [if_pos ⟨hx, hy⟩, hm]

theorem renderPhases_ok_verbosity (data : Dict) (s4 s' : RState) (v : Int)
    (hv : s4.getAttr "defaultArnoldRenderOptions.log_verbosity" = PyVal.int v)
    (h : renderPhases data s4 = Except.ok s') :
    s'.getAttr "defaultArnoldRenderOptions.log_verbosity" = PyVal.int (max v 2) := by
  unfold renderPhases at h
  try dsimp only at h
  split at h
  · cases h
  · next s5 heq =>
    have h5 : s5.getAttr "defaultArnoldRenderOptions.log_verbosity" = PyVal.int v := by
      split at heq
      · rw [tileBlock_ok_getAttr _ _ _ _ _ _ heq
          (by decide) (by decide) (by decide) (by decide) (by decide)]
        exact hv
      · cases heq
        exact hv
    exact finishPhase_ok_verbosity s5 s' v h5 h

theorem Dict.contains_insert_self (d : Dict) (k : String) (v : PyVal) :
    Dict.contains (Dict.insert d k v) k = true := by
  simp [Dict.contains, Dict.insert, Dict.find]

theorem withDefaults_width_absent (s : RState)
    (hw : Dict.contains s.kwargs "width" = false) :
    Dict.get (withDefaults s).kwargs "width" = s.getAttr "defaultResolution.width" := by
  unfold withDefaults
  split
  · next hcond => rw [hw] at hcond; cases hcond
  · try dsimp only
    split
    · show Dict.get (Dict.insert s.kwargs "width" _) "width" = _
      rw [Dict.get_insert_self]
    · show Dict.get (Dict.insert (Dict.insert s.kwargs "width" _) "height" _) "width" = _
      rw [Dict.get_insert_ne _ _ _ _ (by decide), Dict.get_insert_self]

theorem withDefaults_contains_width_absent (s : RState)
    (hw : Dict.contains s.kwargs "width" = false) :
    Dict.contains (withDefaults s).kwargs "width" = true := by
  unfold withDefaults
  split
  · next hcond => rw [hw] at hcond; cases hcond
  · try dsimp only
    split
    · show Dict.contains (Dict.insert s.kwargs "width" _) "width" = true
      exact Dict.contains_insert_self _ _ _
    · show Dict.contains (Dict.insert (Dict.insert s.kwargs "width" _) "height" _) "width" = true
      rw [Dict.contains_insert_ne _ _ _ _ (by decide)]
      exact Dict.contains_insert_self _ _ _

theorem withDefaults_height_absent (s : RState)
    (hh : Dict.contains s.kwargs "height" = false) :
    Dict.get (withDefaults s).kwargs "height" = s.getAttr "defaultResolution.height" := by
  unfold withDefaults
  split
  · try dsimp only
    split
    · next hcond => rw [hh] at hcond; cases hcond
    · show Dict.get (Dict.insert s.kwargs "height" _) "height" = _
      rw [Dict.get_insert_self]
  · try dsimp only
    split
    · next hcond =>
      rw [RState.setKwarg_kwargs, Dict.contains_insert_ne _ _ _ _ (by decide), hh] at hcond
      cases hcond
    · show Dict.get (Dict.insert (Dict.insert s.kwargs "width" _) "height" _) "height" = _
      rw [Dict.get_insert_self]
      rfl

theorem tileBlock_int_run (data : Dict) (s : RState) (w h nx ny tx ty : Int)
    (hw : Dict.get s.kwargs "width" = PyVal.int w)
    (hh : Dict.get s.kwargs "height" = PyVal.int h)
    (htx : Dict.get data "tileNumX" = PyVal.int tx)
    (hty : Dict.get data "tileNumY" = PyVal.int ty)
    (hnx : nx ≠ 0) (hny : ny ≠ 0) :
    ∃ s5, tileBlock data (PyVal.int nx) (PyVal.int ny) s = Except.ok s5 ∧
      s5.getAttr "defaultRenderGlobals.imageFilePrefix" =
        PyVal.str ("_tile_" ++ toString ty ++ "x" ++ toString tx ++ "_"
          ++ toString ny ++ "x" ++ toString nx ++ "_"
          ++ (Dict.get data "output_file_prefix").pyStr) ∧
      s5.getAttr "defaultArnoldRenderOptions.regionMinX" = PyVal.int (tileRange w nx tx).1 ∧
      s5.getAttr "defaultArnoldRenderOptions.regionMaxX" = PyVal.int (tileRange w nx tx).2 ∧
      s5.getAttr "defaultArnoldRenderOptions.regionMinY" = PyVal.int (tileRange h ny ty).1 ∧
      s5.getAttr "defaultArnoldRenderOptions.regionMaxY" = PyVal.int (tileRange h ny ty).2 := by
  unfold tileBlock
  rw [if_neg (not_not_intro ⟨rfl, rfl⟩)]
  try dsimp only
  rw [htx, hty]
  rw [if_neg (not_not_intro ⟨rfl, rfl⟩)]
  rw [hw, hh]
  try dsimp only [PyVal.toInt]
  rw [if_neg (by simp only [PyVal.asInt, PyVal.toInt, Option.getD, not_or]; exact ⟨hnx, hny⟩)]
  refine ⟨_, rfl, ?_, ?_, ?_, ?_, ?_⟩
  · rw [RState.getAttr_setAttr_self]
    rfl
  · rw [RState.getAttr_setAttr_ne _ _ _ _ (by decide),
        RState.getAttr_setAttr_ne _ _ _ _ (by decide),
        RState.getAttr_setAttr_ne _ _ _ _ (by decide),
        RState.getAttr_setAttr_ne _ _ _ _ (by decide),
        RState.getAttr_setAttr_self]
    rfl
  · rw [RState.getAttr_setAttr_ne _ _ _ _ (by decide),
        RState.getAttr_setAttr_ne _ _ _ _ (by decide),
        RState.getAttr_setAttr_ne _ _ _ _ (by decide),
        RState.getAttr_setAttr_self]
    rfl
  · rw [RState.getAttr_setAttr_ne _ _ _ _ (by decide),
        RState.getAttr_setAttr_ne _ _ _ _ (by decide),
        RState.getAttr_setAttr_self]
    rfl
  · rw [RState.getAttr_setAttr_ne _ _ _ _ (by decide),
        RState.getAttr_setAttr_self]
    rfl

/-! Claim theorems. -/

/-- C3: whenever the data binds `numXTiles` and `numYTiles` to non-`None`
values and any of `numXTiles`, `numYTiles`, `tileNumX`, `tileNumY` is not an
integer, `start_render` raises, and at the point of the raise no host
attribute has been written (the attribute store and effect trace are
untouched). -/
theorem C3_nonint_tile_params (data : Dict) (s : RState)
    (hx : Dict.get data "numXTiles" ≠ PyVal.none)
    (hy : Dict.get data "numYTiles" ≠ PyVal.none)
    (hni : ((Dict.get data "numXTiles").isInstInt && (Dict.get data "numYTiles").isInstInt
        && (Dict.get data "tileNumX").isInstInt
        && (Dict.get data "tileNumY").isInstInt) = false) :
    isError (ArnoldHandler.start_render data s) = true ∧
    (runState (ArnoldHandler.start_render data s)).attrs = s.attrs ∧
    (runState (ArnoldHandler.start_render data s)).effects = s.effects := by
  unfold ArnoldHandler.start_render
  try dsimp only
  by_cases hf : Dict.get data "frame" = PyVal.none
  · rw [if_pos hf]
    exact ⟨rfl, rfl, rfl⟩
  · rw [if_neg hf]
    try dsimp only
    cases hgc : get_camera_to_render data with
    | error e =>
      exact ⟨rfl, rfl, rfl⟩
    | ok cam =>
      obtain ⟨m, hm⟩ := renderPhases_nonint_error data
        (withDefaults ((s.setKwarg "seq" (Dict.get data "frame")).setKwarg "camera" cam))
        hx hy hni
      try dsimp only
      rw [hm]
      refine ⟨rfl, ?_, ?_⟩
      · show (withDefaults _).attrs = s.attrs
        rw [withDefaults_attrs]
        rfl
      · show (withDefaults _).effects = s.effects
        rw [withDefaults_effects]
        rfl

/-- C3 witness: a concrete data dictionary with a string `numXTiles`. -/
theorem C3_nonint_tile_params_witness :
    isError (ArnoldHandler.start_render
      [("frame", PyVal.int 1), ("camera", PyVal.str "cam1"),
       ("numXTiles", PyVal.str "2"), ("numYTiles", PyVal.int 2),
       ("tileNumX", PyVal.int 1), ("tileNumY", PyVal.int 1)]
      { kwargs := ArnoldHandler.initKwargs, attrs := [], effects := [] }) = true ∧
    (runState (ArnoldHandler.start_render
      [("frame", PyVal.int 1), ("camera", PyVal.str "cam1"),
       ("numXTiles", PyVal.str "2"), ("numYTiles", PyVal.int 2),
       ("tileNumX", PyVal.int 1), ("tileNumY", PyVal.int 1)]
      { kwargs := ArnoldHandler.initKwargs, attrs := [], effects := [] })).attrs = [] ∧
    (runState (ArnoldHandler.start_render
      [("frame", PyVal.int 1), ("camera", PyVal.str "cam1"),
       ("numXTiles", PyVal.str "2"), ("numYTiles", PyVal.int 2),
       ("tileNumX", PyVal.int 1), ("tileNumY", PyVal.int 1)]
      { kwargs := ArnoldHandler.initKwargs, attrs := [], effects := [] })).effects = [] :=
  C3_nonint_tile_params _ _ (by decide) (by decide) (by decide)

/-- C4: when the frame and camera resolve (the steps preceding the
defaulting), `start_render` fills each missing resolution entry
independently: if the working configuration has no `width` entry it is set
to the host's `defaultResolution.width`, and if it has no `height` entry it
is set to the host's `defaultResolution.height`, whatever the rest of the
run does and regardless of whether the other entry was present. -/
theorem C4_resolution_defaults (data : Dict) (s : RState)
    (hf : Dict.get data "frame" ≠ PyVal.none)
    (hcam : Dict.contains data "camera" = true) :
    (Dict.contains s.kwargs "width" = false →
      Dict.get (runState (ArnoldHandler.start_render data s)).kwargs "width"
        = s.getAttr "defaultResolution.width") ∧
    (Dict.contains s.kwargs "height" = false →
      Dict.get (runState (ArnoldHandler.start_render data s)).kwargs "height"
        = s.getAttr "defaultResolution.height") := by
  unfold ArnoldHandler.start_render
  try dsimp only
  rw [if_neg hf]
  try dsimp only
  obtain ⟨c, hc⟩ : ∃ c, get_camera_to_render data = Except.ok c := by
    unfold get_camera_to_render
    unfold Dict.contains at hcam
    cases hfind : Dict.find data "camera" with
    | none => simp [hfind] at hcam
    | some v => exact ⟨v, rfl⟩
  rw [hc]
  try dsimp only
  rw [renderPhases_runState_kwargs]
  constructor
  · intro hw
    have hw2 : Dict.contains ((s.setKwarg "seq" (Dict.get data "frame")).setKwarg
        "camera" c).kwargs "width" = false := by
      show Dict.contains (Dict.insert (Dict.insert s.kwargs "seq" _) "camera" _) "width" = false
      rw [Dict.contains_insert_ne _ _ _ _ (by decide),
          Dict.contains_insert_ne _ _ _ _ (by decide)]
      exact hw
    rw [withDefaults_width_absent _ hw2]
    rfl
  · intro hh
    have hh2 : Dict.contains ((s.setKwarg "seq" (Dict.get data "frame")).setKwarg
        "camera" c).kwargs "height" = false := by
      show Dict.contains (Dict.insert (Dict.insert s.kwargs "seq" _) "camera" _) "height" = false
      rw [Dict.contains_insert_ne _ _ _ _ (by decide),
          Dict.contains_insert_ne _ _ _ _ (by decide)]
      exact hh
    rw [withDefaults_height_absent _ hh2]
    rfl

/-- C4 witness: a concrete run whose `render_kwargs` already holds
`height = 50` but no `width`; the missing `width` alone is defaulted to the
host resolution 320. -/
theorem C4_resolution_defaults_witness :
    Dict.get (runState (ArnoldHandler.start_render
      [("frame", PyVal.int 1), ("camera", PyVal.str "cam1")]
      { kwargs := [("batch", PyVal.bool true), ("height", PyVal.int 50)],
        attrs := [("defaultResolution.width", PyVal.int 320),
                  ("defaultResolution.height", PyVal.int 240),
                  ("defaultArnoldRenderOptions.log_verbosity", PyVal.int 2)],
        effects := [] })).kwargs "width" = PyVal.int 320 :=
  (C4_resolution_defaults _ _ (by decide) (by decide)).1 rfl

/-- C2: when the key `frame` is absent from the data (or bound to `None`),
`start_render` raises the runtime error
"MayaClient: start_render called without a frame number." with the state
unchanged, so no renderer invocation and no attribute write has occurred. -/
theorem C2_missing_frame_raises (data : Dict) (s : RState)
    (h : Dict.get data "frame" = PyVal.none) :
    ArnoldHandler.start_render data s =
      Except.error ("MayaClient: start_render called without a frame number.", s) := by
  unfold ArnoldHandler.start_render
  simp [h]

/-- C2 witness: a concrete data dictionary without `frame`. -/
theorem C2_missing_frame_raises_witness :
    ArnoldHandler.start_render [("camera", PyVal.str "cam1")]
        { kwargs := ArnoldHandler.initKwargs, attrs := [], effects := [] } =
      Except.error ("MayaClient: start_render called without a frame number.",
        { kwargs := ArnoldHandler.initKwargs, attrs := [], effects := [] }) :=
  C2_missing_frame_raises _ _ rfl

/-- C8: `set_error_on_arnold_license_fail` sets
`defaultArnoldRenderOptions.abortOnLicenseFail` to the value bound to
`error_on_arnold_license_fail`, and to `True` when the key is absent. -/
theorem C8_license_fail_default (data : Dict) (s : RState) :
    (∀ v, Dict.find data "error_on_arnold_license_fail" = Option.some v →
      (ArnoldHandler.set_error_on_arnold_license_fail data s).getAttr
        "defaultArnoldRenderOptions.abortOnLicenseFail" = v) ∧
    (Dict.find data "error_on_arnold_license_fail" = Option.none →
      (ArnoldHandler.set_error_on_arnold_license_fail data s).getAttr
        "defaultArnoldRenderOptions.abortOnLicenseFail" = PyVal.bool true) := by
  constructor
  · intro v hv
    unfold ArnoldHandler.set_error_on_arnold_license_fail
    rw [RState.getAttr_setAttr_self]
    simp [Dict.getD, hv]
  · intro hv
    unfold ArnoldHandler.set_error_on_arnold_license_fail
    rw [RState.getAttr_setAttr_self]
    simp [Dict.getD, hv]

/-- C8 witness: with the key bound to `False` the attribute becomes `False`;
with the key absent it becomes `True`. -/
theorem C8_license_fail_default_witness :
    ((ArnoldHandler.set_error_on_arnold_license_fail
        [("error_on_arnold_license_fail", PyVal.bool false)]
        { kwargs := [], attrs := [], effects := [] }).getAttr
      "defaultArnoldRenderOptions.abortOnLicenseFail" = PyVal.bool false) ∧
    ((ArnoldHandler.set_error_on_arnold_license_fail []
        { kwargs := [], attrs := [], effects := [] }).getAttr
      "defaultArnoldRenderOptions.abortOnLicenseFail" = PyVal.bool true) :=
  ⟨(C8_license_fail_default _ _).1 (PyVal.bool false) rfl,
   (C8_license_fail_default _ _).2 rfl⟩

/-- C5: in UI mode with a saved scene, when loading saved settings raises a
persistence error, `doIt` logs the stack trace and proceeds as with no
saved settings: the default UI settings are serialized into the command
result and the submitter dialog is shown; removing the stack-trace log from
the trace yields exactly the trace of a run whose load returned nothing. -/
theorem C5_persist_error_nonfatal (w : SubmitterWorld) (hui : w.uiMode = true)
    (hscene : w.sceneName ≠ "") (hload : w.loadOutcome = LoadOutcome.persistError) :
    DeadlineCloudSubmitterCmd.doIt w =
      [SubmitEffect.loadSettings, SubmitEffect.printExc,
       SubmitEffect.setResult (serializeUISettings Option.none),
       SubmitEffect.showSubmitter Option.none] ∧
    (DeadlineCloudSubmitterCmd.doIt w).erase SubmitEffect.printExc =
      DeadlineCloudSubmitterCmd.doIt { w with loadOutcome := LoadOutcome.loadedNone } := by
  unfold DeadlineCloudSubmitterCmd.doIt
  simp [hui, hscene, hload, List.erase]

/-- C5 witness: a concrete UI-mode world with a saved scene whose settings
load raises the persistence error. -/
theorem C5_persist_error_nonfatal_witness :
    DeadlineCloudSubmitterCmd.doIt
        { uiMode := true, sceneName := "scene.ma", loadOutcome := LoadOutcome.persistError } =
      [SubmitEffect.loadSettings, SubmitEffect.printExc,
       SubmitEffect.setResult (serializeUISettings Option.none),
       SubmitEffect.showSubmitter Option.none] ∧
    (DeadlineCloudSubmitterCmd.doIt
        { uiMode := true, sceneName := "scene.ma",
          loadOutcome := LoadOutcome.persistError }).erase SubmitEffect.printExc =
      DeadlineCloudSubmitterCmd.doIt
        { uiMode := true, sceneName := "scene.ma", loadOutcome := LoadOutcome.loadedNone } :=
  C5_persist_error_nonfatal _ rfl (by decide) rfl

/-- C6: in UI mode with an unsaved scene, `doIt` shows only the modal
confirm dialog and returns: no settings load, no command result, and no
submitter dialog occurs. -/
theorem C6_unsaved_scene_dialog (w : SubmitterWorld) (hui : w.uiMode = true)
    (hscene : w.sceneName = "") :
    DeadlineCloudSubmitterCmd.doIt w =
      [SubmitEffect.confirmDialog "Deadline Cloud Submitter"
        "The Maya Scene is not saved to disk. Please save it before opening the submitter dialog."] ∧
    SubmitEffect.loadSettings ∉ DeadlineCloudSubmitterCmd.doIt w ∧
    (∀ p, SubmitEffect.setResult p ∉ DeadlineCloudSubmitterCmd.doIt w) ∧
    (∀ o, SubmitEffect.showSubmitter o ∉ DeadlineCloudSubmitterCmd.doIt w) := by
  have h : DeadlineCloudSubmitterCmd.doIt w =
      [SubmitEffect.confirmDialog "Deadline Cloud Submitter"
        "The Maya Scene is not saved to disk. Please save it before opening the submitter dialog."] := by
    unfold DeadlineCloudSubmitterCmd.doIt
    simp [hui, hscene]
  refine ⟨h, ?_, ?_, ?_⟩ <;> simp [h]

/-- C6 witness: a concrete UI-mode world with an empty scene name. -/
theorem C6_unsaved_scene_dialog_witness :
    DeadlineCloudSubmitterCmd.doIt
        { uiMode := true, sceneName := "", loadOutcome := LoadOutcome.loadedNone } =
      [SubmitEffect.confirmDialog "Deadline Cloud Submitter"
        "The Maya Scene is not saved to disk. Please save it before opening the submitter dialog."] ∧
    SubmitEffect.loadSettings ∉ DeadlineCloudSubmitterCmd.doIt
        { uiMode := true, sceneName := "", loadOutcome := LoadOutcome.loadedNone } :=
  ⟨(C6_unsaved_scene_dialog _ rfl rfl).1,
   (C6_unsaved_scene_dialog _ rfl rfl).2.1⟩

/-- C10: a non-raising run of `start_render` leaves the Arnold log-verbosity
attribute at the maximum of its prior integer value and 2: it is raised to 2
when below 2 and left unchanged otherwise, so it never decreases. -/
theorem C10_verbosity_monotone (data : Dict) (s s' : RState) (v : Int)
    (hv : s.getAttr "defaultArnoldRenderOptions.log_verbosity" = PyVal.int v)
    (h : ArnoldHandler.start_render data s = Except.ok s') :
    s'.getAttr "defaultArnoldRenderOptions.log_verbosity" = PyVal.int (max v 2) := by
  unfold ArnoldHandler.start_render at h
  try dsimp only at h
  split at h
  · cases h
  · split at h
    · cases h
    · next cam heq =>
      refine renderPhases_ok_verbosity data _ s' v ?_ h
      rw [withDefaults_getAttr]
      exact hv

/-- C10 witness: prior verbosity 0 ends at `max 0 2 = 2` after a successful
run. -/
theorem C10_verbosity_monotone_witness :
    (runState (ArnoldHandler.start_render
      [("frame", PyVal.int 1), ("camera", PyVal.str "cam1")]
      { kwargs := ArnoldHandler.initKwargs,
        attrs := [("defaultResolution.width", PyVal.int 320),
                  ("defaultResolution.height", PyVal.int 240),
                  ("defaultArnoldRenderOptions.log_verbosity", PyVal.int 0)],
        effects := [] })).getAttr "defaultArnoldRenderOptions.log_verbosity"
      = PyVal.int (max 0 2) :=
  C10_verbosity_monotone
    [("frame", PyVal.int 1), ("camera", PyVal.str "cam1")]
    { kwargs := ArnoldHandler.initKwargs,
      attrs := [("defaultResolution.width", PyVal.int 320),
                ("defaultResolution.height", PyVal.int 240),
                ("defaultArnoldRenderOptions.log_verbosity", PyVal.int 0)],
      effects := [] }
    (runState (ArnoldHandler.start_render
      [("frame", PyVal.int 1), ("camera", PyVal.str "cam1")]
      { kwargs := ArnoldHandler.initKwargs,
        attrs := [("defaultResolution.width", PyVal.int 320),
                  ("defaultResolution.height", PyVal.int 240),
                  ("defaultArnoldRenderOptions.log_verbosity", PyVal.int 0)],
        effects := [] }))
    0 rfl rfl

/-- C9: in a tile-rendering run (integer tile counts and indices, integer
width and height, frame and camera present), the image file-name prefix
attribute is set to exactly
`"_tile_" ++ tileNumY ++ "x" ++ tileNumX ++ "_" ++ numYTiles ++ "x" ++
numXTiles ++ "_" ++ prefix` with the Y coordinate first and 1-based tile
indices taken directly from the data. -/
theorem C9_tile_prefix (data : Dict) (s : RState) (w h nx ny tx ty : Int)
    (hf : Dict.get data "frame" ≠ PyVal.none)
    (hcam : Dict.contains data "camera" = true)
    (hkw : Dict.get s.kwargs "width" = PyVal.int w)
    (hkh : Dict.get s.kwargs "height" = PyVal.int h)
    (hx : Dict.get data "numXTiles" = PyVal.int nx)
    (hy : Dict.get data "numYTiles" = PyVal.int ny)
    (htx : Dict.get data "tileNumX" = PyVal.int tx)
    (hty : Dict.get data "tileNumY" = PyVal.int ty)
    (hnx : nx ≠ 0) (hny : ny ≠ 0) :
    (runState (ArnoldHandler.start_render data s)).getAttr
        "defaultRenderGlobals.imageFilePrefix" =
      PyVal.str ("_tile_" ++ toString ty ++ "x" ++ toString tx ++ "_"
        ++ toString ny ++ "x" ++ toString nx ++ "_"
        ++ (Dict.get data "output_file_prefix").pyStr) := by
  unfold ArnoldHandler.start_render
  try dsimp only
  rw [if_neg hf]
  try dsimp only
  obtain ⟨c, hc⟩ : ∃ c, get_camera_to_render data = Except.ok c := by
    unfold get_camera_to_render
    unfold Dict.contains at hcam
    cases hfind : Dict.find data "camera" with
    | none => simp [hfind] at hcam
    | some v => exact ⟨v, rfl⟩
  rw [hc]
  try dsimp only
  have hw2 : Dict.get ((s.setKwarg "seq" (Dict.get data "frame")).setKwarg
      "camera" c).kwargs "width" = PyVal.int w := by
    show Dict.get (Dict.insert (Dict.insert s.kwargs "seq" _) "camera" _) "width" = _
    rw [Dict.get_insert_ne _ _ _ _ (by decide), Dict.get_insert_ne _ _ _ _ (by decide)]
    exact hkw
  have hh2 : Dict.get ((s.setKwarg "seq" (Dict.get data "frame")).setKwarg
      "camera" c).kwargs "height" = PyVal.int h := by
    show Dict.get (Dict.insert (Dict.insert s.kwargs "seq" _) "camera" _) "height" = _
    rw [Dict.get_insert_ne _ _ _ _ (by decide), Dict.get_insert_ne _ _ _ _ (by decide)]
    exact hkh
  rw [withDefaults_both_present _
    (Dict.contains_of_get_ne_none _ _ (by rw [hw2]; simp))
    (Dict.contains_of_get_ne_none _ _ (by rw [hh2]; simp))]
  unfold renderPhases
  try dsimp only
  rw [hx, hy]
  rw [if_pos ⟨by simp, by simp⟩]
  obtain ⟨s5, hrun, hpfx, _, _, _, _⟩ :=
    tileBlock_int_run data ((s.setKwarg "seq" (Dict.get data "frame")).setKwarg "camera" c)
      w h nx ny tx ty hw2 hh2 htx hty hnx hny
  rw [hrun]
  try dsimp only
  rw [finishPhase_runState_getAttr _ _ (by decide) (by decide)]
  exact hpfx

/-- C9 witness: a 3 x 2 tiling of a 100 x 50 image, rendering tile (3, 2)
with output prefix `shot`. -/
theorem C9_tile_prefix_witness :
    (runState (ArnoldHandler.start_render
      [("frame", PyVal.int 1), ("camera", PyVal.str "cam1"),
       ("numXTiles", PyVal.int 3), ("numYTiles", PyVal.int 2),
       ("tileNumX", PyVal.int 3), ("tileNumY", PyVal.int 2),
       ("output_file_prefix", PyVal.str "shot")]
      { kwargs := [("batch", PyVal.bool true), ("width", PyVal.int 100),
                   ("height", PyVal.int 50)],
        attrs := [("defaultArnoldRenderOptions.log_verbosity", PyVal.int 2)],
        effects := [] })).getAttr "defaultRenderGlobals.imageFilePrefix" =
      PyVal.str ("_tile_" ++ toString (2 : Int) ++ "x" ++ toString (3 : Int) ++ "_"
        ++ toString (2 : Int) ++ "x" ++ toString (3 : Int) ++ "_"
        ++ (Dict.get [("frame", PyVal.int 1), ("camera", PyVal.str "cam1"),
              ("numXTiles", PyVal.int 3), ("numYTiles", PyVal.int 2),
              ("tileNumX", PyVal.int 3), ("tileNumY", PyVal.int 2),
              ("output_file_prefix", PyVal.str "shot")] "output_file_prefix").pyStr) :=
  C9_tile_prefix _ _ 100 50 3 2 3 2 (by decide) rfl rfl rfl rfl rfl rfl rfl
    (by decide) (by decide)

/-- C7 counterexample: the claim that no key written to `render_kwargs`
during one `start_render` call remains in the mapping afterwards is false:
after a successful call on a state whose `render_kwargs` lacks `width`, the
resulting `render_kwargs` does contain `width`. -/
theorem C7_counterexample :
    ¬ (∀ (data : Dict) (s s' : RState),
        ArnoldHandler.start_render data s = Except.ok s' →
        Dict.contains s.kwargs "width" = false →
        Dict.contains s'.kwargs "width" = false) := by
  intro hcl
  have h2 := hcl [("frame", PyVal.int 3), ("camera", PyVal.str "cam1")]
    { kwargs := [("batch", PyVal.bool true)],
      attrs := [("defaultResolution.width", PyVal.int 100),
                ("defaultResolution.height", PyVal.int 50),
                ("defaultArnoldRenderOptions.log_verbosity", PyVal.int 2)],
      effects := [] }
    (runState (ArnoldHandler.start_render
      [("frame", PyVal.int 3), ("camera", PyVal.str "cam1")]
      { kwargs := [("batch", PyVal.bool true)],
        attrs := [("defaultResolution.width", PyVal.int 100),
                  ("defaultResolution.height", PyVal.int 50),
                  ("defaultArnoldRenderOptions.log_verbosity", PyVal.int 2)],
        effects := [] })) rfl rfl
  exact absurd h2 (by decide)

/-- C7 amended: `render_kwargs` is instance state that survives the call:
after a successful `start_render`, a `width` entry that was absent has been
written (with the host resolution) and remains, and a `width` entry that was
already present is left unchanged — so the value persists into and affects
subsequent calls instead of being dropped. -/
theorem C7_kwargs_persist (data : Dict) (s s' : RState)
    (h : ArnoldHandler.start_render data s = Except.ok s') :
    (Dict.contains s.kwargs "width" = true →
      Dict.get s'.kwargs "width" = Dict.get s.kwargs "width") ∧
    (Dict.contains s.kwargs "width" = false →
      Dict.get s'.kwargs "width" = s.getAttr "defaultResolution.width" ∧
      Dict.contains s'.kwargs "width" = true) := by
  unfold ArnoldHandler.start_render at h
  try dsimp only at h
  split at h
  · cases h
  · split at h
    · cases h
    · next cam heq =>
      have hkw : s'.kwargs =
          (withDefaults ((s.setKwarg "seq" (Dict.get data "frame")).setKwarg
            "camera" cam)).kwargs := by
        have hrp := renderPhases_runState_kwargs data
          (withDefaults ((s.setKwarg "seq" (Dict.get data "frame")).setKwarg "camera" cam))
        rw [h] at hrp
        exact hrp
      have hcw : ∀ b, Dict.contains s.kwargs "width" = b →
          Dict.contains ((s.setKwarg "seq" (Dict.get data "frame")).setKwarg
            "camera" cam).kwargs "width" = b := by
        intro b hb
        show Dict.contains (Dict.insert (Dict.insert s.kwargs "seq" _) "camera" _) "width" = b
        rw [Dict.contains_insert_ne _ _ _ _ (by decide),
            Dict.contains_insert_ne _ _ _ _ (by decide)]
        exact hb
      constructor
      · intro hw
        rw [hkw, withDefaults_width_present _ (hcw true hw)]
        show Dict.get (Dict.insert (Dict.insert s.kwargs "seq" _) "camera" _) "width" = _
        rw [Dict.get_insert_ne _ _ _ _ (by decide), Dict.get_insert_ne _ _ _ _ (by decide)]
      · intro hw
        constructor
        · rw [hkw, withDefaults_width_absent _ (hcw false hw)]
          rfl
        · rw [hkw]
          exact withDefaults_contains_width_absent _ (hcw false hw)

/-- C7 amended witness: a run whose `render_kwargs` already holds
`width = 100` keeps that value through a successful call. -/
theorem C7_kwargs_persist_witness :
    Dict.get (runState (ArnoldHandler.start_render
      [("frame", PyVal.int 3), ("camera", PyVal.str "cam1")]
      { kwargs := [("batch", PyVal.bool true), ("width", PyVal.int 100),
                   ("height", PyVal.int 50)],
        attrs := [("defaultResolution.width", PyVal.int 200),
                  ("defaultResolution.height", PyVal.int 80),
                  ("defaultArnoldRenderOptions.log_verbosity", PyVal.int 2)],
        effects := [] })).kwargs "width" =
      Dict.get [("batch", PyVal.bool true), ("width", PyVal.int 100),
                ("height", PyVal.int 50)] "width" :=
  (C7_kwargs_persist
    [("frame", PyVal.int 3), ("camera", PyVal.str "cam1")]
    { kwargs := [("batch", PyVal.bool true), ("width", PyVal.int 100),
                 ("height", PyVal.int 50)],
      attrs := [("defaultResolution.width", PyVal.int 200),
                ("defaultResolution.height", PyVal.int 80),
                ("defaultArnoldRenderOptions.log_verbosity", PyVal.int 2)],
      effects := [] }
    (runState (ArnoldHandler.start_render
      [("frame", PyVal.int 3), ("camera", PyVal.str "cam1")]
      { kwargs := [("batch", PyVal.bool true), ("width", PyVal.int 100),
                   ("height", PyVal.int 50)],
        attrs := [("defaultResolution.width", PyVal.int 200),
                  ("defaultResolution.height", PyVal.int 80),
                  ("defaultArnoldRenderOptions.log_verbosity", PyVal.int 2)],
        effects := [] })) rfl).1 rfl

/-! The tile-partition property (C1).  `cover_unique_aux` is the arithmetic
core: with `d` tiles of equal width and a remainder `r` on the last tile,
every pixel of `[0, N*d + r)` lies in exactly one tile's inclusive range. -/

theorem cover_unique_aux (N d r p : Int) (hN : 1 ≤ N) (hd0 : 0 ≤ d)
    (hp0 : 0 ≤ p) (hpW : p < N * d + r) :
    ∃! t : Int, (1 ≤ t ∧ t ≤ N) ∧
      (d * (t - 1) ≤ p ∧ p ≤ d * t - 1 + (if t = N then r else 0)) := by
  have key : ∀ t1 t2 : Int, t1 < t2 → t2 ≤ N →
      (d * (t1 - 1) ≤ p ∧ p ≤ d * t1 - 1 + (if t1 = N then r else 0)) →
      (d * (t2 - 1) ≤ p ∧ p ≤ d * t2 - 1 + (if t2 = N then r else 0)) → False := by
    intro t1 t2 hlt ht2N h1 h2
    have ht1N : t1 ≠ N := by omega
    rw [if_neg ht1N] at h1
    have hmul : d * t1 ≤ d * (t2 - 1) :=
      mul_le_mul_of_nonneg_left (by omega) hd0
    linarith [h1.2, h2.1]
  have uniq : ∀ y t : Int,
      ((1 ≤ y ∧ y ≤ N) ∧ (d * (y - 1) ≤ p ∧ p ≤ d * y - 1 + (if y = N then r else 0))) →
      ((1 ≤ t ∧ t ≤ N) ∧ (d * (t - 1) ≤ p ∧ p ≤ d * t - 1 + (if t = N then r else 0))) →
      y = t := by
    intro y t hy ht
    rcases lt_trichotomy y t with hc | hc | hc
    · exact (key y t hc ht.1.2 hy.2 ht.2).elim
    · exact hc
    · exact (key t y hc hy.1.2 ht.2 hy.2).elim
  by_cases hd : d = 0
  · subst hd
    refine ⟨N, ⟨⟨hN, le_refl N⟩, by omega, ?_⟩, fun y hy => uniq y N hy ?_⟩
    · rw [if_pos rfl]
      omega
    · exact ⟨⟨hN, le_refl N⟩, by omega, by rw [if_pos rfl]; omega⟩
  · have hdpos : 0 < d := by omega
    have hq : d * (p / d) + p % d = p := Int.ediv_add_emod p d
    have hs0 : 0 ≤ p % d := Int.emod_nonneg p hd
    have hsd : p % d < d := Int.emod_lt_of_pos p hdpos
    have hq0 : 0 ≤ p / d := Int.ediv_nonneg hp0 hd0
    by_cases hqN : p / d + 1 < N
    · refine ⟨p / d + 1, ⟨⟨by omega, by omega⟩, ?_, ?_⟩, fun y hy => uniq y (p / d + 1) hy ?_⟩
      · have hsimp : d * (p / d + 1 - 1) = d * (p / d) := by ring
        rw [hsimp]
        omega
      · rw [if_neg (by omega)]
        have hexp : d * (p / d + 1) = d * (p / d) + d := by ring
        omega
      · refine ⟨⟨by omega, by omega⟩, ?_, ?_⟩
        · have hsimp : d * (p / d + 1 - 1) = d * (p / d) := by ring
          rw [hsimp]
          omega
        · rw [if_neg (by omega)]
          have hexp : d * (p / d + 1) = d * (p / d) + d := by ring
          omega
    · have hlow : d * (N - 1) ≤ p := by
        have hmul : d * (N - 1) ≤ d * (p / d) :=
          mul_le_mul_of_nonneg_left (by omega) hd0
        omega
      have hhigh : p ≤ d * N - 1 + r := by
        have hcomm : N * d = d * N := by ring
        omega
      refine ⟨N, ⟨⟨hN, le_refl N⟩, hlow, by rw [if_pos rfl]; exact hhigh⟩,
        fun y hy => uniq y N hy ⟨⟨hN, le_refl N⟩, hlow, by rw [if_pos rfl]; exact hhigh⟩⟩

/-- Per-axis version of C1 over the `tileRange` extracted from
`start_render`: for a nonnegative extent, at least one tile, and a pixel in
`[0, W)`, exactly one 1-based tile index covers the pixel. -/
theorem tile_cover_unique_1d (W N p : Int) (hW : 0 ≤ W) (hN : 1 ≤ N)
    (hp0 : 0 ≤ p) (hpW : p < W) :
    ∃! t : Int, (1 ≤ t ∧ t ≤ N) ∧ inTile W N t p := by
  have hNne : N ≠ 0 := by omega
  have hfd : Int.fdiv W N = W / N := Int.fdiv_eq_ediv W (by omega)
  have hfm : Int.fmod W N = W % N := Int.fmod_eq_emod W (by omega)
  have hWeq : N * (W / N) + W % N = W := Int.ediv_add_emod W N
  have hd0 : 0 ≤ W / N := Int.ediv_nonneg hW (by omega)
  have hiff : ∀ t : Int, inTile W N t p ↔
      ((W / N) * (t - 1) ≤ p ∧
        p ≤ (W / N) * t - 1 + (if t = N then W % N else 0)) := by
    intro t
    unfold inTile tileRange
    try dsimp only
    rw [hfd, hfm]
  obtain ⟨t0, ht0, huniq⟩ := cover_unique_aux N (W / N) (W % N) p hN hd0 hp0
    (by rw [hWeq]; exact hpW)
  exact ⟨t0, ⟨ht0.1, (hiff t0).mpr ht0.2⟩,
    fun y hy => huniq y ⟨hy.1, (hiff y).mp hy.2⟩⟩

/-- C1: for any width `W ≥ 0`, height `H ≥ 0`, tile counts `Nx, Ny ≥ 1` and
pixel `(px, py)` of `[0, W) × [0, H)`, exactly one 1-based tile index pair
`(tx, ty)` covers the pixel under the inclusive tile bounds computed by
`start_render` (minimum `(W div Nx) * (tx - 1)`, maximum
`(W div Nx) * tx - 1` plus the remainder on the last tile): the tiles
partition the image with no gaps and no overlaps, remainder pixels going to
the last row and column. -/
theorem C1_tile_partition (W H Nx Ny px py : Int) (hW : 0 ≤ W) (hH : 0 ≤ H)
    (hNx : 1 ≤ Nx) (hNy : 1 ≤ Ny) (hpx0 : 0 ≤ px) (hpxW : px < W)
    (hpy0 : 0 ≤ py) (hpyH : py < H) :
    ∃! t : Int × Int, (1 ≤ t.1 ∧ t.1 ≤ Nx ∧ 1 ≤ t.2 ∧ t.2 ≤ Ny) ∧
      inTile W Nx t.1 px ∧ inTile H Ny t.2 py := by
  obtain ⟨tx, htx, hux⟩ := tile_cover_unique_1d W Nx px hW hNx hpx0 hpxW
  obtain ⟨ty, hty, huy⟩ := tile_cover_unique_1d H Ny py hH hNy hpy0 hpyH
  refine ⟨(tx, ty), ⟨⟨htx.1.1, htx.1.2, hty.1.1, hty.1.2⟩, htx.2, hty.2⟩, ?_⟩
  rintro ⟨y1, y2⟩ ⟨⟨hb1, hb2, hb3, hb4⟩, hm1, hm2⟩
  have e1 := hux y1 ⟨⟨hb1, hb2⟩, hm1⟩
  have e2 := huy y2 ⟨⟨hb3, hb4⟩, hm2⟩
  rw [e1, e2]

/-- C1 witness: the pixel (9, 3) of a 10 x 7 image split 3 x 2 lies in
exactly one tile. -/
theorem C1_tile_partition_witness :
    ∃! t : Int × Int, (1 ≤ t.1 ∧ t.1 ≤ 3 ∧ 1 ≤ t.2 ∧ t.2 ≤ 2) ∧
      inTile 10 3 t.1 9 ∧ inTile 7 2 t.2 3 :=
  C1_tile_partition 10 7 3 2 9 3 (by decide) (by decide) (by decide) (by decide)
    (by decide) (by decide) (by decide) (by decide)

end Maya
